import Mathlib

/-!
Verification of the git MCP server (`src/main.py`).

The server exposes four tool handlers — `git_add`, `git_commit`, `git_push`,
`git_status` — each of which validates its inputs, resolves a repository
working directory, composes an argument vector for the external `git`
executable, runs it via `subprocess.run` with a bounded timeout, and shapes
the outcome into a result dictionary.

Embedding choices:
* The filesystem is an oracle `Env` giving path resolution (`Path.resolve`),
  existence of a resolved path, the current working directory (`Path.cwd`),
  and whether a directory contains a `.git` marker.
* Process execution is an oracle `Exec : Invocation → ExecOutcome`; an
  `Invocation` records the argument vector, working directory and timeout
  passed to `subprocess.run`, and an `ExecOutcome` is either a completed run
  (exit code plus raw captured streams), a `subprocess.TimeoutExpired`, or
  any other exception (the generic `except Exception` arm).
* Each handler returns the Python result dict, modelled as an ordered
  association list of string keys and values, together with the list of
  invocations it performed, in order.  "No external process is spawned"
  is the statement that this trace is empty.
-/

namespace GitMCP

/-- Python `s.strip()`: drop leading and trailing whitespace.  Implemented
on the character list so that it reduces inside the kernel. -/
def pyStrip (s : String) : String :=
  ⟨((s.data.dropWhile Char.isWhitespace).reverse.dropWhile
      Char.isWhitespace).reverse⟩

/-- Accumulator-passing core of `pySplit`: `acc` holds the characters of
the current word, reversed. -/
def pySplitAux : List Char → List Char → List String
  | [], acc => if acc.isEmpty then [] else [String.mk acc.reverse]
  | c :: cs, acc =>
    if c.isWhitespace then
      if acc.isEmpty then pySplitAux cs []
      else String.mk acc.reverse :: pySplitAux cs []
    else pySplitAux cs (c :: acc)

/-- Python `s.split()`: split on runs of whitespace, discarding empties. -/
def pySplit (s : String) : List String :=
  pySplitAux s.data []

/-- Truthiness of a Python `Optional[str]`: `None` and `""` are falsy. -/
def pyTruthy : Option String → Bool
  | none => false
  | some s => s ≠ ""

/-- Python `list.insert(i, x)`: insert before position `i`, appending when
`i` exceeds the length. -/
def pyInsert (i : Nat) (x : α) (xs : List α) : List α :=
  xs.take i ++ x :: xs.drop i

/-- Filesystem oracle: `resolve` is `Path(p).resolve()` rendered as a string,
`pathExists` is `.exists()` on a resolved path, `cwd` is `Path.cwd()`, and
`hasGitDir p` is `(p / ".git").exists()`. -/
structure Env where
  resolve : String → String
  pathExists : String → Bool
  cwd : String
  hasGitDir : String → Bool

/-- One call to `subprocess.run`: argument vector, working directory, and
timeout in seconds. -/
structure Invocation where
  cmd : List String
  cwd : String
  timeout : Nat
deriving DecidableEq

/-- Outcome of `subprocess.run`: normal completion with exit code and raw
captured streams, `TimeoutExpired`, or any other exception. -/
inductive ExecOutcome
  | completed (returncode : Int) (stdout stderr : String)
  | timedOut
  | exn (msg : String)
deriving DecidableEq

/-- Process-execution oracle. -/
abbrev Exec := Invocation → ExecOutcome

/-- A handler's returned dictionary: ordered string-keyed, string-valued
pairs, in the order the Python dict literal lists them. -/
abbrev ToolResult := List (String × String)

/-- The repository-resolution preamble duplicated verbatim at the top of all
four handlers (e.g. `src/main.py` lines 39–54): a truthy `repository_path`
is resolved and checked for existence (`PathNotFound` interpolates the
literal input), otherwise the current working directory is used; then the
`.git` marker is checked (`NotARepository` interpolates the resolved path). -/
def resolveRepo (repository_path : Option String) (env : Env) :
    Except ToolResult String :=
  let step1 : Except ToolResult String :=
    if pyTruthy repository_path then
      let rp := repository_path.getD ""
      let r := env.resolve rp
      if env.pathExists r then .ok r
      else
        .error [("status", "error"),
                ("message", "Repository path does not exist: " ++ rp)]
    else .ok env.cwd
  match step1 with
  | .error e => .error e
  | .ok repo_path =>
    if env.hasGitDir repo_path then .ok repo_path
    else
      .error [("status", "error"),
              ("message", "Not a git repository: " ++ repo_path)]

/-! ### git_add (`src/main.py` lines 15–110) -/

structure AddArgs where
  files : Option String := none
  all_files : Bool := false
  interactive : Bool := false
  patch : Bool := false
  repository_path : Option String := none

/-- The `git add` selector chain (lines 57–73): first matching branch wins;
`none` means the `MissingTarget` error is returned. -/
def gitAddSelect (files : Option String) (all_files interactive pa : Bool) :
    Option (List String) :=
  let cmd := ["git", "add"]
  if interactive then some (cmd ++ ["--interactive"])
  else if pa then some (cmd ++ ["--patch"])
  else if all_files then some (cmd ++ ["."])
  else if pyTruthy files then
    some (cmd ++ pySplit (pyStrip (files.getD "")))
  else none

/-- Shaping of the `git add` execution outcome (lines 84–109). -/
def gitAddShape (cmd : List String) (repo_path : String) :
    ExecOutcome → ToolResult
  | .completed rc out err =>
    if rc == 0 then
      [("status", "success"),
       ("message", "Files successfully added to staging area"),
       ("command", String.intercalate " " cmd),
       ("stdout", if pyStrip out ≠ "" then pyStrip out else "No output"),
       ("repository_path", repo_path)]
    else
      [("status", "error"),
       ("message", "Git add command failed"),
       ("command", String.intercalate " " cmd),
       ("stderr", pyStrip err),
       ("repository_path", repo_path)]
  | .timedOut =>
    [("status", "error"),
     ("message", "Git add command timed out after 30 seconds")]
  | .exn m =>
    [("status", "error"), ("message", "Unexpected error: " ++ m)]

def git_add (a : AddArgs) (env : Env) (exec : Exec) :
    ToolResult × List Invocation :=
  match resolveRepo a.repository_path env with
  | .error e => (e, [])
  | .ok repo_path =>
    match gitAddSelect a.files a.all_files a.interactive a.patch with
    | none =>
      ([("status", "error"),
        ("message",
         "Must specify either files, all_files=True, interactive=True, or patch=True")],
       [])
    | some cmd =>
      let inv : Invocation := ⟨cmd, repo_path, 30⟩
      (gitAddShape cmd repo_path (exec inv), [inv])

/-! ### git_commit (`src/main.py` lines 112–201) -/

structure CommitArgs where
  message : String
  all_files : Bool := false
  amend : Bool := false
  repository_path : Option String := none

/-- The commit argument vector (lines 158–164): base
`["git","commit","-m",message]`, then `-a` inserted at index 2 when
`all_files`, then `--amend` inserted at index 2 when `amend`. -/
def gitCommitCmd (message : String) (all_files amend : Bool) : List String :=
  let cmd := ["git", "commit", "-m", message]
  let cmd := if all_files then pyInsert 2 "-a" cmd else cmd
  if amend then pyInsert 2 "--amend" cmd else cmd

/-- Shaping of the `git commit` execution outcome (lines 175–200). -/
def gitCommitShape (cmd : List String) (repo_path : String) :
    ExecOutcome → ToolResult
  | .completed rc out err =>
    if rc == 0 then
      [("status", "success"),
       ("message", "Commit created successfully"),
       ("command", String.intercalate " " cmd),
       ("stdout", pyStrip out),
       ("repository_path", repo_path)]
    else
      [("status", "error"),
       ("message", "Git commit command failed"),
       ("command", String.intercalate " " cmd),
       ("stderr", pyStrip err),
       ("repository_path", repo_path)]
  | .timedOut =>
    [("status", "error"),
     ("message", "Git commit command timed out after 30 seconds")]
  | .exn m =>
    [("status", "error"), ("message", "Unexpected error: " ++ m)]

def git_commit (a : CommitArgs) (env : Env) (exec : Exec) :
    ToolResult × List Invocation :=
  if pyStrip a.message == "" then
    ([("status", "error"), ("message", "Commit message cannot be empty")], [])
  else
    match resolveRepo a.repository_path env with
    | .error e => (e, [])
    | .ok repo_path =>
      let cmd := gitCommitCmd a.message a.all_files a.amend
      let inv : Invocation := ⟨cmd, repo_path, 30⟩
      (gitCommitShape cmd repo_path (exec inv), [inv])

/-! ### git_push (`src/main.py` lines 203–315) -/

structure PushArgs where
  remote : String := "origin"
  branch : Option String := none
  force : Bool := false
  set_upstream : Bool := false
  repository_path : Option String := none

/-- The push argument vector (lines 269–277): base `["git","push"]`, then
`["-u", remote, branch]` or `[remote, branch]`, then `--force` inserted at
index 2 when `force`. -/
def gitPushCmd (remote branch : String) (force set_upstream : Bool) :
    List String :=
  let cmd := ["git", "push"]
  let cmd := if set_upstream then cmd ++ ["-u", remote, branch]
             else cmd ++ [remote, branch]
  if force then pyInsert 2 "--force" cmd else cmd

/-- Shaping of the push execution outcome (lines 288–314). -/
def gitPushShape (cmd : List String) (remote branch repo_path : String) :
    ExecOutcome → ToolResult
  | .completed rc out err =>
    if rc == 0 then
      [("status", "success"),
       ("message", "Successfully pushed to " ++ remote ++ "/" ++ branch),
       ("command", String.intercalate " " cmd),
       ("stdout", pyStrip out),
       ("stderr", pyStrip err),
       ("repository_path", repo_path)]
    else
      [("status", "error"),
       ("message", "Git push to " ++ remote ++ "/" ++ branch ++ " failed"),
       ("command", String.intercalate " " cmd),
       ("stderr", pyStrip err),
       ("repository_path", repo_path)]
  | .timedOut =>
    [("status", "error"),
     ("message", "Git push command timed out after 2 minutes")]
  | .exn m =>
    [("status", "error"), ("message", "Unexpected error: " ++ m)]

/-- The branch-discovery invocation (lines 246–252). -/
def discoveryInvocation (repo_path : String) : Invocation :=
  ⟨["git", "branch", "--show-current"], repo_path, 10⟩

/-- The push phase shared by both branches of the discovery logic: build the
command, run it with the 120-second timeout, shape the outcome.  `trace` is
the list of invocations already performed (the discovery one, if any). -/
def pushPhase (remote branch : String) (force set_upstream : Bool)
    (repo_path : String) (exec : Exec) (trace : List Invocation) :
    ToolResult × List Invocation :=
  let cmd := gitPushCmd remote branch force set_upstream
  let inv : Invocation := ⟨cmd, repo_path, 120⟩
  (gitPushShape cmd remote branch repo_path (exec inv), trace ++ [inv])

def git_push (a : PushArgs) (env : Env) (exec : Exec) :
    ToolResult × List Invocation :=
  match resolveRepo a.repository_path env with
  | .error e => (e, [])
  | .ok repo_path =>
    match a.branch with
    | some branch =>
      pushPhase a.remote branch a.force a.set_upstream repo_path exec []
    | none =>
      match exec (discoveryInvocation repo_path) with
      | .completed rc out err =>
        if rc == 0 then
          if pyStrip out == "" then
            ([("status", "error"),
              ("message", "Could not determine current branch")],
             [discoveryInvocation repo_path])
          else
            pushPhase a.remote (pyStrip out) a.force a.set_upstream repo_path exec
              [discoveryInvocation repo_path]
        else
          ([("status", "error"),
            ("message", "Failed to get current branch"),
            ("stderr", pyStrip err)], [discoveryInvocation repo_path])
      | .timedOut =>
        ([("status", "error"),
          ("message", "Git push command timed out after 2 minutes")],
         [discoveryInvocation repo_path])
      | .exn m =>
        ([("status", "error"), ("message", "Unexpected error: " ++ m)],
         [discoveryInvocation repo_path])

/-! ### git_status (`src/main.py` lines 317–380) -/

/-- The status invocation (lines 349–355). -/
def statusInvocation (repo_path : String) : Invocation :=
  ⟨["git", "status", "--porcelain"], repo_path, 10⟩

/-- Shaping of the status execution outcome (lines 357–379). -/
def gitStatusShape (repo_path : String) : ExecOutcome → ToolResult
  | .completed rc out err =>
    if rc == 0 then
      [("status", "success"),
       ("repository_path", repo_path),
       ("porcelain_output", pyStrip out),
       ("message", "Git status retrieved successfully")]
    else
      [("status", "error"),
       ("message", "Git status command failed"),
       ("stderr", pyStrip err)]
  | .timedOut =>
    [("status", "error"), ("message", "Git status command timed out")]
  | .exn m =>
    [("status", "error"), ("message", "Unexpected error: " ++ m)]

def git_status (repository_path : Option String) (env : Env) (exec : Exec) :
    ToolResult × List Invocation :=
  match resolveRepo repository_path env with
  | .error e => (e, [])
  | .ok repo_path =>
    let inv := statusInvocation repo_path
    (gitStatusShape repo_path (exec inv), [inv])

/-! ### Concrete test fixtures -/

/-- An environment in which every path resolves to itself, exists, and is a
git repository; the current directory is `/repo`. -/
def env0 : Env := ⟨fun p => p, fun _ => true, "/repo", fun _ => true⟩

/-- An executor on which every process completes successfully with empty
output. -/
def exec0 : Exec := fun _ => .completed 0 "" ""

/-- An executor on which every process times out. -/
def execTimedOut : Exec := fun _ => .timedOut

/-- An environment in which no path exists. -/
def envNoPath : Env := ⟨fun p => p, fun _ => false, "/repo", fun _ => true⟩

/-- An environment in which every path exists but none has a `.git` marker. -/
def envNoGit : Env := ⟨fun p => p, fun _ => true, "/repo", fun _ => false⟩

/-! ## Helper lemmas -/

/-- An empty-string `repository_path` takes the same branch of the
resolution preamble as an omitted one, because the code tests the path for
truthiness. -/
lemma resolveRepo_empty_path (env : Env) :
    resolveRepo (some "") env = resolveRepo none env := by
  simp [resolveRepo, pyTruthy]

/-- Characterization of the `PathNotFound` arm of the resolution preamble:
the message interpolates the literal input path. -/
lemma resolveRepo_pathNotFound (rp : String) (env : Env) (h1 : rp ≠ "")
    (h2 : env.pathExists (env.resolve rp) = false) :
    resolveRepo (some rp) env =
      .error [("status", "error"),
              ("message", "Repository path does not exist: " ++ rp)] := by
  simp [resolveRepo, pyTruthy, h1, h2]

/-- Characterization of the `NotARepository` arm of the resolution preamble
for a supplied path: the message interpolates the resolved path. -/
lemma resolveRepo_notARepository (rp : String) (env : Env) (h1 : rp ≠ "")
    (h2 : env.pathExists (env.resolve rp) = true)
    (h3 : env.hasGitDir (env.resolve rp) = false) :
    resolveRepo (some rp) env =
      .error [("status", "error"),
              ("message", "Not a git repository: " ++ env.resolve rp)] := by
  simp [resolveRepo, pyTruthy, h1, h2, h3]

/-! ## Claims -/

/-- Claim C1, counterexample: a whitespace-only `files` string is truthy in
Python, so `git_add` with `files = " "` and all selector flags false does
NOT return the `MissingTarget` error; it runs a bare `git add` (here
succeeding) and spawns exactly one external process. -/
theorem gitAdd_whitespace_files_counterexample :
    (git_add ⟨some " ", false, false, false, none⟩ env0 exec0).1.lookup
        "status" = some "success" ∧
    (git_add ⟨some " ", false, false, false, none⟩ env0 exec0).2 =
      [⟨["git", "add"], "/repo", 30⟩] := by
  constructor <;> decide

/-- Claim C1 (amended): when interactive, patch and all_files are false,
`files` is absent or the empty string (hence falsy), and repository
resolution succeeds, `git_add` returns the `MissingTarget` error result and
spawns no external process. -/
theorem gitAdd_missingTarget (f : Option String) (rp : Option String)
    (env : Env) (exec : Exec) (repo : String)
    (hres : resolveRepo rp env = .ok repo)
    (hf : f = none ∨ f = some "") :
    git_add ⟨f, false, false, false, rp⟩ env exec =
      ([("status", "error"),
        ("message",
         "Must specify either files, all_files=True, interactive=True, or patch=True")],
       []) := by
  rcases hf with rfl | rfl <;> simp [git_add, hres, gitAddSelect, pyTruthy]

/-- Witness for the amended C1 at a concrete input. -/
theorem gitAdd_missingTarget_witness :
    resolveRepo none env0 = .ok "/repo" ∧
    git_add ⟨none, false, false, false, none⟩ env0 exec0 =
      ([("status", "error"),
        ("message",
         "Must specify either files, all_files=True, interactive=True, or patch=True")],
       []) :=
  ⟨rfl, gitAdd_missingTarget none none env0 exec0 "/repo" rfl (Or.inl rfl)⟩

/-- Claim C5: an empty or whitespace-only commit message yields the
`EmptyMessage` error with no external process spawned, and the result does
not depend on the environment or executor at all (so the error is produced
before any repository resolution is attempted), regardless of the other
parameters. -/
theorem gitCommit_emptyMessage (a : CommitArgs) (env : Env) (exec : Exec)
    (h : pyStrip a.message = "") :
    git_commit a env exec =
      ([("status", "error"), ("message", "Commit message cannot be empty")],
       []) ∧
    ∀ (env2 : Env) (exec2 : Exec),
      git_commit a env exec = git_commit a env2 exec2 := by
  constructor
  · simp [git_commit, h]
  · intro env2 exec2
    simp [git_commit, h]

/-- Witness for C5 at a concrete input: whitespace-only message, other
flags set, nonexistent repository path. -/
theorem gitCommit_emptyMessage_witness :
    (pyStrip "   " = "") ∧
    git_commit ⟨"   ", true, true, some "/nonexistent"⟩ envNoPath exec0 =
      ([("status", "error"), ("message", "Commit message cannot be empty")],
       []) :=
  ⟨by decide,
   (gitCommit_emptyMessage ⟨"   ", true, true, some "/nonexistent"⟩ envNoPath
       exec0 (by decide)).1⟩

/-- Claim C7: the `git_add` selector chain is evaluated in the fixed order
interactive, patch, all_files, files, the first matching branch wins and
lower-priority flags are silently ignored; each whitespace-separated token
of a truthy `files` is a separate positional argument; and in particular
`interactive=true` with `files="a.txt"` composes a command containing
`--interactive` and not containing `a.txt`. -/
theorem gitAdd_precedence :
    (∀ (f : Option String) (af p : Bool),
      gitAddSelect f af true p = some ["git", "add", "--interactive"]) ∧
    (∀ (f : Option String) (af : Bool),
      gitAddSelect f af false true = some ["git", "add", "--patch"]) ∧
    (∀ f : Option String,
      gitAddSelect f true false false = some ["git", "add", "."]) ∧
    (∀ f : Option String, pyTruthy f = true →
      gitAddSelect f false false false =
        some (["git", "add"] ++ pySplit (pyStrip (f.getD "")))) ∧
    (∀ inv ∈ (git_add ⟨some "a.txt", false, true, false, none⟩ env0
        exec0).2, "--interactive" ∈ inv.cmd ∧ "a.txt" ∉ inv.cmd) := by
  refine ⟨fun f af p => rfl, fun f af => rfl, fun f => rfl, ?_, ?_⟩
  · intro f hf
    simp [gitAddSelect, hf]
  · decide

/-- Witness for C7: the files branch at `files="a.txt b.txt"` yields the
two tokens in order, and the interactive command of the final conjunct. -/
theorem gitAdd_precedence_witness :
    (gitAddSelect (some "a.txt b.txt") false false false =
      some ["git", "add", "a.txt", "b.txt"]) ∧
    ("--interactive" ∈ (["git", "add", "--interactive"] : List String) ∧
     "a.txt" ∉ (["git", "add", "--interactive"] : List String)) :=
  ⟨(gitAdd_precedence.2.2.2.1 (some "a.txt b.txt") (by decide)).trans
     (by decide),
   gitAdd_precedence.2.2.2.2 ⟨["git", "add", "--interactive"], "/repo", 30⟩
     (by decide)⟩

/-- Claim C8: with `amend=true` and `all_files=true`, the commit argument
vector is exactly `git commit --amend -a -m <message>`: both flags sit
after the program and subcommand tokens in the deterministic order
`--amend` then `-a`, and the literal message is a single token following
`-m`, with internal whitespace preserved; the handler passes exactly this
vector to the executor. -/
theorem gitCommit_amend_allFiles :
    (∀ m : String,
      gitCommitCmd m true true =
        ["git", "commit", "--amend", "-a", "-m", m]) ∧
    (git_commit ⟨"two  words", true, true, none⟩ env0 exec0).2 =
      [⟨["git", "commit", "--amend", "-a", "-m", "two  words"], "/repo",
        30⟩] := by
  exact ⟨fun m => rfl, by decide⟩

/-- Claim C6: with `force=true` and `set_upstream=true` the push vector is
exactly `git push --force -u <remote> <branch>` — force flag before the
upstream flag, remote then branch as the final two positional tokens;
with `set_upstream=false`, remote then branch follow the subcommand
directly (after `--force` when force is set); and the handler passes this
vector to the executor. -/
theorem gitPush_flag_order :
    (∀ remote branch : String,
      gitPushCmd remote branch true true =
        ["git", "push", "--force", "-u", remote, branch]) ∧
    (∀ (remote branch : String) (force : Bool),
      gitPushCmd remote branch force false =
        ["git", "push"] ++ (if force then ["--force"] else []) ++
          [remote, branch]) ∧
    (git_push ⟨"origin", some "main", true, true, none⟩ env0 exec0).2 =
      [⟨["git", "push", "--force", "-u", "origin", "main"], "/repo",
        120⟩] := by
  refine ⟨fun r b => rfl, fun r b force => ?_, by decide⟩
  cases force <;> rfl

/-- Claim C10: each of the four handlers treats `repository_path = ""` the
same as an omitted `repository_path` (the code tests the path for
truthiness, not for being `None`), for every environment, executor and
choice of the other parameters. -/
theorem emptyPath_as_omitted :
    (∀ (f : Option String) (af i p : Bool) (env : Env) (exec : Exec),
      git_add ⟨f, af, i, p, some ""⟩ env exec =
        git_add ⟨f, af, i, p, none⟩ env exec) ∧
    (∀ (m : String) (caf cam : Bool) (env : Env) (exec : Exec),
      git_commit ⟨m, caf, cam, some ""⟩ env exec =
        git_commit ⟨m, caf, cam, none⟩ env exec) ∧
    (∀ (r : String) (b : Option String) (fo su : Bool) (env : Env)
        (exec : Exec),
      git_push ⟨r, b, fo, su, some ""⟩ env exec =
        git_push ⟨r, b, fo, su, none⟩ env exec) ∧
    (∀ (env : Env) (exec : Exec),
      git_status (some "") env exec = git_status none env exec) := by
  refine ⟨?_, ?_, ?_, ?_⟩ <;> intros <;>
    simp only [git_add, git_commit, git_push, git_status,
      resolveRepo_empty_path]

/-- Claim C2, counterexample: on timeout `git_status` returns the fixed
message `Git status command timed out`, which contains no digit and hence
does not name the 10-second duration; moreover a timeout during branch
discovery makes `git_push` report `2 minutes`, not the discovery's
10-second duration. -/
theorem timeout_message_counterexample :
    (git_status none env0 execTimedOut).1 =
      [("status", "error"), ("message", "Git status command timed out")] ∧
    (∀ c ∈ "Git status command timed out".data, ¬ c.isDigit) ∧
    (git_push ⟨"origin", none, false, false, none⟩ env0 execTimedOut).1 =
      [("status", "error"),
       ("message", "Git push command timed out after 2 minutes")] := by
  exact ⟨by decide, by decide, by decide⟩

/-- Claim C2 (amended): when the external process exceeds its timeout the
result is an error with a fixed message: `git_add` and `git_commit` name
30 seconds, `git_push` names 2 minutes (also when the timeout occurs
during branch discovery), and `git_status` returns the fixed message
`Git status command timed out`, which names no duration. -/
theorem timeout_messages (env : Env) (exec : Exec) (rp : Option String)
    (repo m b : String)
    (hres : resolveRepo rp env = .ok repo)
    (hexec : ∀ inv, exec inv = .timedOut)
    (hm : pyStrip m ≠ "") :
    (git_add ⟨none, true, false, false, rp⟩ env exec).1 =
      [("status", "error"),
       ("message", "Git add command timed out after 30 seconds")] ∧
    (git_commit ⟨m, false, false, rp⟩ env exec).1 =
      [("status", "error"),
       ("message", "Git commit command timed out after 30 seconds")] ∧
    (git_push ⟨"origin", some b, false, false, rp⟩ env exec).1 =
      [("status", "error"),
       ("message", "Git push command timed out after 2 minutes")] ∧
    (git_push ⟨"origin", none, false, false, rp⟩ env exec).1 =
      [("status", "error"),
       ("message", "Git push command timed out after 2 minutes")] ∧
    (git_status rp env exec).1 =
      [("status", "error"), ("message", "Git status command timed out")] := by
  refine ⟨?_, ?_, ?_, ?_, ?_⟩ <;>
    simp [git_add, git_commit, git_push, git_status, pushPhase, gitAddShape,
      gitCommitShape, gitPushShape, gitStatusShape, gitAddSelect, hres,
      hexec, hm]

/-- Witness for the amended C2 at a concrete input. -/
theorem timeout_messages_witness :
    resolveRepo none env0 = .ok "/repo" ∧ pyStrip "msg" ≠ "" ∧
    (git_status none env0 execTimedOut).1 =
      [("status", "error"), ("message", "Git status command timed out")] :=
  ⟨rfl, by decide,
   (timeout_messages env0 execTimedOut none "/repo" "msg" "main" rfl
       (fun _ => rfl) (by decide)).2.2.2.2⟩

/-- Claim C3: for all four handlers, a supplied nonexistent repository path
yields the `PathNotFound` error interpolating the literal input path, an
existing path lacking the `.git` marker yields the `NotARepository` error
interpolating the resolved absolute path, the error results are
byte-identical across the four tools (all four equal the same literal
value), and in both cases the invocation trace is empty. -/
theorem resolution_error_uniform (env : Env) (exec : Exec)
    (rp m remote : String) (f : Option String)
    (af i p caf cam fo su : Bool) (b : Option String)
    (hm : pyStrip m ≠ "") (hrp : rp ≠ "") :
    (env.pathExists (env.resolve rp) = false →
      git_add ⟨f, af, i, p, some rp⟩ env exec =
        ([("status", "error"),
          ("message", "Repository path does not exist: " ++ rp)], []) ∧
      git_commit ⟨m, caf, cam, some rp⟩ env exec =
        ([("status", "error"),
          ("message", "Repository path does not exist: " ++ rp)], []) ∧
      git_push ⟨remote, b, fo, su, some rp⟩ env exec =
        ([("status", "error"),
          ("message", "Repository path does not exist: " ++ rp)], []) ∧
      git_status (some rp) env exec =
        ([("status", "error"),
          ("message", "Repository path does not exist: " ++ rp)], [])) ∧
    (env.pathExists (env.resolve rp) = true →
      env.hasGitDir (env.resolve rp) = false →
      git_add ⟨f, af, i, p, some rp⟩ env exec =
        ([("status", "error"),
          ("message", "Not a git repository: " ++ env.resolve rp)], []) ∧
      git_commit ⟨m, caf, cam, some rp⟩ env exec =
        ([("status", "error"),
          ("message", "Not a git repository: " ++ env.resolve rp)], []) ∧
      git_push ⟨remote, b, fo, su, some rp⟩ env exec =
        ([("status", "error"),
          ("message", "Not a git repository: " ++ env.resolve rp)], []) ∧
      git_status (some rp) env exec =
        ([("status", "error"),
          ("message", "Not a git repository: " ++ env.resolve rp)], [])) := by
  constructor
  · intro hpe
    have hr := resolveRepo_pathNotFound rp env hrp hpe
    refine ⟨?_, ?_, ?_, ?_⟩ <;>
      simp [git_add, git_commit, git_push, git_status, hr, hm]
  · intro hpe hgd
    have hr := resolveRepo_notARepository rp env hrp hpe hgd
    refine ⟨?_, ?_, ?_, ?_⟩ <;>
      simp [git_add, git_commit, git_push, git_status, hr, hm]

/-- Witness for C3 at a concrete input: a nonexistent path given to
`git_status`. -/
theorem resolution_error_uniform_witness :
    pyStrip "m" ≠ "" ∧ "/x" ≠ "" ∧
    envNoPath.pathExists (envNoPath.resolve "/x") = false ∧
    git_status (some "/x") envNoPath exec0 =
      ([("status", "error"),
        ("message", "Repository path does not exist: " ++ "/x")], []) :=
  ⟨by decide, by decide, rfl,
   ((resolution_error_uniform envNoPath exec0 "/x" "m" "origin" none false
        false false false false false false none (by decide)
        (by decide)).1 rfl).2.2.2⟩

/-- Claim C4: `git_add`, `git_commit` and `git_status` perform at most one
external invocation per call; `git_push` with an explicit branch performs
at most one and never more than two in any case; when `branch` is omitted
and discovery succeeds with a nonempty name, the trace is exactly the
discovery invocation followed by the push invocation; discovery succeeding
with an empty name yields the `NoCurrentBranch` error with only the
discovery invocation performed; discovery exiting nonzero yields the
`BranchQueryFailed` error carrying the discovery stderr, again with no
push invocation. -/
theorem invocation_count_policy :
    (∀ (a : AddArgs) (env : Env) (exec : Exec),
      (git_add a env exec).2.length ≤ 1) ∧
    (∀ (a : CommitArgs) (env : Env) (exec : Exec),
      (git_commit a env exec).2.length ≤ 1) ∧
    (∀ (rp : Option String) (env : Env) (exec : Exec),
      (git_status rp env exec).2.length ≤ 1) ∧
    (∀ (a : PushArgs) (env : Env) (exec : Exec) (b : String),
      a.branch = some b → (git_push a env exec).2.length ≤ 1) ∧
    (∀ (a : PushArgs) (env : Env) (exec : Exec),
      (git_push a env exec).2.length ≤ 2) ∧
    (∀ (a : PushArgs) (env : Env) (exec : Exec) (repo out err : String),
      a.branch = none → resolveRepo a.repository_path env = .ok repo →
      exec (discoveryInvocation repo) = .completed 0 out err →
      (pyStrip out = "" →
        git_push a env exec =
          ([("status", "error"),
            ("message", "Could not determine current branch")],
           [discoveryInvocation repo])) ∧
      (pyStrip out ≠ "" →
        (git_push a env exec).2 =
          [discoveryInvocation repo,
           ⟨gitPushCmd a.remote (pyStrip out) a.force a.set_upstream, repo,
            120⟩])) ∧
    (∀ (a : PushArgs) (env : Env) (exec : Exec) (repo : String) (rc : Int)
        (out err : String),
      a.branch = none → resolveRepo a.repository_path env = .ok repo →
      exec (discoveryInvocation repo) = .completed rc out err → rc ≠ 0 →
      git_push a env exec =
        ([("status", "error"), ("message", "Failed to get current branch"),
          ("stderr", pyStrip err)], [discoveryInvocation repo])) := by
  refine ⟨?_, ?_, ?_, ?_, ?_, ?_, ?_⟩
  · intro a env exec
    unfold git_add
    split
    · simp
    · split <;> simp
  · intro a env exec
    unfold git_commit
    split
    · simp
    · split <;> simp
  · intro rp env exec
    unfold git_status
    split <;> simp
  · intro a env exec b hb
    unfold git_push
    split
    · simp
    · rw [hb]
      simp [pushPhase]
  · intro a env exec
    unfold git_push
    split
    · simp
    · split
      · simp [pushPhase]
      · split
        · split
          · split
            · simp
            · simp [pushPhase]
          · simp
        · simp
        · simp
  · intro a env exec repo out err hb hres hd
    constructor
    · intro hout
      simp [git_push, hb, hres, hd, hout]
    · intro hout
      simp [git_push, hb, hres, hd, hout, pushPhase]
  · intro a env exec repo rc out err hb hres hd hrc
    simp [git_push, hb, hres, hd, hrc]

/-- Witness for C4 at a concrete input: omitted branch, discovery
succeeding with empty output, so only the discovery invocation runs. -/
theorem invocation_count_policy_witness :
    git_push ⟨"origin", none, false, false, none⟩ env0 exec0 =
      ([("status", "error"),
        ("message", "Could not determine current branch")],
       [discoveryInvocation "/repo"]) :=
  (invocation_count_policy.2.2.2.2.2.1 ⟨"origin", none, false, false, none⟩
      env0 exec0 "/repo" "" "" rfl rfl rfl).1 rfl

/-- Claim C9: on a zero-exit status query, `git_status` returns a success
result whose `porcelain_output` is the captured standard output stripped
of surrounding whitespace and otherwise unmodified, so two calls whose
executors return the same text produce identical `porcelain_output`
values. -/
theorem gitStatus_porcelain (rp : Option String) (env : Env)
    (exec1 exec2 : Exec) (repo out err1 err2 : String)
    (hres : resolveRepo rp env = .ok repo)
    (h1 : exec1 (statusInvocation repo) = .completed 0 out err1)
    (h2 : exec2 (statusInvocation repo) = .completed 0 out err2) :
    (git_status rp env exec1).1 =
      [("status", "success"), ("repository_path", repo),
       ("porcelain_output", pyStrip out),
       ("message", "Git status retrieved successfully")] ∧
    (git_status rp env exec1).1.lookup "porcelain_output" =
      (git_status rp env exec2).1.lookup "porcelain_output" := by
  constructor <;> simp [git_status, gitStatusShape, hres, h1, h2]

/-- Witness for C9 at a concrete input. -/
theorem gitStatus_porcelain_witness :
    (git_status none env0 (fun _ => .completed 0 " M a.txt\n" "")).1 =
      [("status", "success"), ("repository_path", "/repo"),
       ("porcelain_output", "M a.txt"),
       ("message", "Git status retrieved successfully")] :=
  ((gitStatus_porcelain none env0 (fun _ => .completed 0 " M a.txt\n" "")
      (fun _ => .completed 0 " M a.txt\n" "") "/repo" " M a.txt\n" "" ""
      rfl rfl rfl).1).trans (by decide)

end GitMCP
